import Mathlib

/-!
Verification of the Contador de Histórias API (src/main.py), a FastAPI
service with two proxy endpoints: POST /gerar_historia (chat-completion
proxy) and POST /gerar_audio (text-to-speech proxy).

The embedding is a shallow one: each handler becomes a total Lean
function over an explicit environment (the two credential variables),
the request value, and the outcome of the single outbound call, and
returns the client-facing response together with the number of outbound
calls attempted.  Exceptions raised inside the handlers' try blocks are
explicit `Except` values; the handlers' except-clauses become the
corresponding match arms.  Response bodies are modelled as already
parsed JSON values (the result of response.json()); JSON numbers appear
as integers, which is immaterial to every property below.
-/

namespace Contador

/-- JSON values as produced by Python's json.loads (so `null` also stands
for the Python value None returned by dict.get on a missing key). -/
inductive Json where
  | null : Json
  | bool (b : Bool) : Json
  | num (n : Int) : Json
  | str (s : String) : Json
  | arr (elems : List Json) : Json
  | obj (fields : List (String × Json)) : Json

/-- Python exceptions that the JSON extraction code of gerar_audio can
raise (main.py lines 144-151), each carrying its str(e). -/
inductive PyErr where
  | attributeError (msg : String) : PyErr
  | typeError (msg : String) : PyErr
  | indexError (msg : String) : PyErr
  | keyError (msg : String) : PyErr
  | validationError (msg : String) : PyErr
deriving DecidableEq

/-- String form of a Python exception, as interpolated by an f-string. -/
def PyErr.toMsg : PyErr → String
  | .attributeError m => m
  | .typeError m => m
  | .indexError m => m
  | .keyError m => m
  | .validationError m => m

/-- Python type name of a JSON value, used in exception messages. -/
def Json.pyTypeName : Json → String
  | .null => "NoneType"
  | .bool _ => "bool"
  | .num _ => "int"
  | .str _ => "str"
  | .arr _ => "list"
  | .obj _ => "dict"

/-- Python truthiness of a JSON value (bool(v)): None, False, 0, empty
string, empty list and empty dict are falsy, everything else truthy. -/
def jsonTruthy : Json → Bool
  | .null => false
  | .bool b => b
  | .num n => n != 0
  | .str s => !s.isEmpty
  | .arr l => !l.isEmpty
  | .obj l => !l.isEmpty

/-- Python's v.get(key, default): returns the stored value (even when it
is null), the default when the key is absent, and raises AttributeError
on a non-dict receiver.  Duplicate keys cannot arise from json.loads,
which keeps the last binding; lookup on the reversed list matches that. -/
def pyGetD (v : Json) (key : String) (default : Json) : Except PyErr Json :=
  match v with
  | .obj kvs =>
    match kvs.reverse.lookup key with
    | some w => .ok w
    | none => .ok default
  | other =>
    .error (.attributeError
      ("'" ++ other.pyTypeName ++ "' object has no attribute 'get'"))

/-- Python's v[0]: first element of a list (IndexError when empty), first
character of a string (IndexError when empty), KeyError on a dict, and
TypeError on null, booleans and numbers. -/
def pyIndex0 : Json → Except PyErr Json
  | .arr (x :: _) => .ok x
  | .arr [] => .error (.indexError "list index out of range")
  | .str s =>
    match s.data with
    | c :: _ => .ok (.str (String.mk [c]))
    | [] => .error (.indexError "string index out of range")
  | .obj _ => .error (.keyError "0")
  | other =>
    .error (.typeError
      ("'" ++ other.pyTypeName ++ "' object is not subscriptable"))

/-- Embedding of main.py line 144:
part = result.get('candidates', [{}])[0].get('content', {}).get('parts', [{}])[0]. -/
def extractPart (result : Json) : Except PyErr Json := do
  let candidates ← pyGetD result "candidates" (.arr [.obj []])
  let c0 ← pyIndex0 candidates
  let content ← pyGetD c0 "content" (.obj [])
  let parts ← pyGetD content "parts" (.arr [.obj []])
  pyIndex0 parts

/-- Embedding of main.py lines 144-146: the extracted
(audio_data, mime_type) pair, where Json.null stands for Python None
(the value of .get with no default on a missing key). -/
def extractFields (result : Json) : Except PyErr (Json × Json) := do
  let part ← extractPart result
  let inline1 ← pyGetD part "inlineData" (.obj [])
  let audio_data ← pyGetD inline1 "data" .null
  let inline2 ← pyGetD part "inlineData" (.obj [])
  let mime_type ← pyGetD inline2 "mimeType" .null
  return (audio_data, mime_type)

/-- Request body of POST /gerar_historia (main.py lines 44-45); the field
carries no constraint beyond being a string. -/
structure QueryInput where
  query : String
deriving DecidableEq

/-- Success body of POST /gerar_historia (main.py lines 47-48). -/
structure StoryOutput where
  story_text : String
deriving DecidableEq

/-- Request body of POST /gerar_audio (main.py lines 50-51). -/
structure AudioInput where
  text_to_speak : String
deriving DecidableEq

/-- Success body of POST /gerar_audio (main.py lines 53-55). -/
structure AudioOutput where
  audio_base64 : String
  mime_type : String
deriving DecidableEq

/-- FastAPI HTTPException as surfaced to the client. -/
structure HTTPErr where
  status_code : Nat
  detail : String
deriving DecidableEq

/-- Starlette's HTTPException.__str__, namely "{status_code}: {detail}";
this is what the catch-all except clause interpolates when an
HTTPException raised inside the try block is caught by it. -/
def HTTPErr.toMsg (e : HTTPErr) : String :=
  toString e.status_code ++ ": " ++ e.detail

/-- Client-facing outcome of a handler: a 200 response with the given
body, or an HTTPException with status and detail. -/
inductive StoryResult where
  | ok (out : StoryOutput) : StoryResult
  | httpError (e : HTTPErr) : StoryResult
deriving DecidableEq

/-- Client-facing outcome of the audio handler. -/
inductive AudioResult where
  | ok (out : AudioOutput) : AudioResult
  | httpError (e : HTTPErr) : AudioResult
deriving DecidableEq

/-- Process environment: the two credentials read by os.getenv
(main.py lines 33 and 37); none models an unset variable. -/
structure Env where
  GROQ_API_KEY : Option String
  GEMINI_API_KEY : Option String
deriving DecidableEq

/-- Python truthiness of os.getenv's result: `not KEY` is true exactly
when the variable is unset (None) or set to the empty string. -/
def envTruthy : Option String → Bool
  | none => false
  | some s => !s.isEmpty

/-- Outcome of awaiting chain.ainvoke (main.py line 92): the generated
text, or the str(e) of whatever exception the upstream call raised. -/
def ChatOutcome : Type := Except String String

/-- Handler for POST /gerar_historia (main.py lines 61-98).  The second
component counts invocations of the chat-completion client; the chat
client is constructed and invoked inside the try block, so the count is
0 exactly when the credential check fails. -/
def gerar_historia (env : Env) (input_data : QueryInput) (chat : ChatOutcome) :
    StoryResult × Nat :=
  -- line 64: if not GROQ_API_KEY
  if !(envTruthy env.GROQ_API_KEY) then
    (.httpError ⟨500, "GROQ_API_KEY não configurada."⟩, 0)
  else
    -- lines 67-98: the try block invokes the chain once; input_data.query
    -- is passed to the chain (represented by the chat outcome) and is not
    -- otherwise inspected by the handler
    match chat with
    | .ok story_text => (.ok ⟨story_text⟩, 1)
    | .error e => (.httpError ⟨500, "Erro ao gerar história: " ++ e⟩, 1)

/-- Outcome of the single outbound POST to the TTS endpoint (main.py
line 133): an HTTP response with status code and parsed JSON body, or an
httpx.RequestError carrying its str(e). -/
inductive SpeechUpstream where
  | response (status_code : Nat) (body : Json) : SpeechUpstream
  | requestError (msg : String) : SpeechUpstream

/-- Exceptions that can be raised inside the try block of gerar_audio
(main.py lines 131-151). -/
inductive Exc where
  | requestError (msg : String) : Exc
  | httpException (e : HTTPErr) : Exc
  | httpStatusError (status : Nat) : Exc
  | pyExc (e : PyErr) : Exc
deriving DecidableEq

/-- Modelled from httpx: the message of the HTTPStatusError raised by
response.raise_for_status() is built from the status code and the
request URL; its exact wording is external to this repository and no
claim depends on it. -/
def httpxStatusMessage (status : Nat) : String :=
  "Error response '" ++ toString status ++ "' for url"

/-- String form of an exception, as interpolated by the f-strings of the
except clauses (for an HTTPException this is Starlette's __str__). -/
def Exc.toMsg : Exc → String
  | .requestError m => m
  | .httpException e => e.toMsg
  | .httpStatusError s => httpxStatusMessage s
  | .pyExc e => e.toMsg

/-- Embedding of main.py lines 148-151: the payload-presence check on
the extracted pair, then the construction of AudioOutput (pydantic v2
rejects non-string values for str fields with a ValidationError). -/
def finalize (audio_data mime_type : Json) : Except Exc AudioOutput :=
  -- line 148: if not audio_data or not mime_type
  if !(jsonTruthy audio_data) || !(jsonTruthy mime_type) then
    .error (.httpException ⟨500, "API de TTS não retornou dados de áudio."⟩)
  else
    -- line 151: return AudioOutput(...)
    match audio_data, mime_type with
    | .str a, .str m => .ok ⟨a, m⟩
    | _, _ =>
      .error (.pyExc (.validationError "validation error for AudioOutput"))

/-- Body of the try block of gerar_audio (main.py lines 131-151), as an
Except value: every raise becomes an .error.  Note that the
HTTPException(403) of line 138 and the HTTPException(500) of line 149
are raised INSIDE the try block. -/
def gerar_audio_try (upstream : SpeechUpstream) : Except Exc AudioOutput :=
  match upstream with
  | .requestError m => .error (.requestError m)
  | .response status body =>
    -- line 136: if response.status_code == 403
    if status = 403 then
      .error (.httpException ⟨403, "A chave da API de Áudio é inválida."⟩)
    -- line 140: response.raise_for_status() raises unless 2xx
    else if ¬ (200 ≤ status ∧ status < 300) then
      .error (.httpStatusError status)
    else
      -- lines 142-146: result = response.json(); extraction
      match extractFields body with
      | .error pe => .error (.pyExc pe)
      | .ok (audio_data, mime_type) => finalize audio_data mime_type

/-- The except clauses of gerar_audio (main.py lines 153-158): they
catch httpx.RequestError first (502) and then every remaining Exception
(500) — including the HTTPExceptions raised inside the try block, since
fastapi.HTTPException subclasses Exception. -/
def mapExc : Except Exc AudioOutput → AudioResult
  | .ok out => .ok out
  | .error (.requestError m) =>
    .httpError ⟨502, "Erro de comunicação com a API de Áudio: " ++ m⟩
  | .error e =>
    .httpError ⟨500, "Erro ao gerar áudio: " ++ e.toMsg⟩

/-- Handler for POST /gerar_audio (main.py lines 104-158).  The second
component counts outbound POSTs to the TTS endpoint; the POST happens
first inside the try block, so the count is 0 exactly when the
credential check fails. -/
def gerar_audio (env : Env) (input_data : AudioInput) (upstream : SpeechUpstream) :
    AudioResult × Nat :=
  -- line 109: if not GEMINI_API_KEY
  if !(envTruthy env.GEMINI_API_KEY) then
    (.httpError ⟨500, "Chave da API de Áudio não configurada."⟩, 0)
  else
    (mapExc (gerar_audio_try upstream), 1)

/-- Modelled from the spec: Python's str.strip(), used only to state the
spec's "non-empty after trimming" condition on the theme; the source
itself (main.py) never trims the theme. -/
def strip (s : String) : String :=
  String.mk (((s.data.dropWhile Char.isWhitespace).reverse.dropWhile
    Char.isWhitespace).reverse)

/-- Unfolding lemma: with a truthy speech credential the audio handler
runs the try block once and maps its outcome through the except
clauses. -/
theorem gerar_audio_unfold (env : Env) (inp : AudioInput) (up : SpeechUpstream)
    (h : envTruthy env.GEMINI_API_KEY = true) :
    gerar_audio env inp up = (mapExc (gerar_audio_try up), 1) := by
  simp [gerar_audio, h]

/-- Unfolding lemma: on a 2xx response whose extraction succeeds, the try
block reaches the payload-presence check of line 148. -/
theorem gerar_audio_try_extract_ok (status : Nat) (body : Json) (d m : Json)
    (h200 : 200 ≤ status) (h300 : status < 300)
    (hext : extractFields body = .ok (d, m)) :
    gerar_audio_try (.response status body) = finalize d m := by
  have h403 : ¬ (status = 403) := by omega
  have hs : ¬¬(200 ≤ status ∧ status < 300) := not_not_intro ⟨h200, h300⟩
  simp only [gerar_audio_try, if_neg h403, if_neg hs, hext]

/-- Unfolding lemma: on a 2xx response whose extraction raises a Python
exception, the try block propagates that exception. -/
theorem gerar_audio_try_extract_err (status : Nat) (body : Json) (pe : PyErr)
    (h200 : 200 ≤ status) (h300 : status < 300)
    (hext : extractFields body = .error pe) :
    gerar_audio_try (.response status body) = .error (.pyExc pe) := by
  have h403 : ¬ (status = 403) := by omega
  have hs : ¬¬(200 ≤ status ∧ status < 300) := not_not_intro ⟨h200, h300⟩
  simp only [gerar_audio_try, if_neg h403, if_neg hs, hext]

/-- C3 counterexample: a theme consisting only of whitespace (empty
after trimming) is NOT rejected — with the chat credential present the
handler invokes the chat client once and forwards its text. -/
theorem c3_counterexample :
    strip "   " = "" ∧
    gerar_historia ⟨some "gsk_teste", none⟩ ⟨"   "⟩ (.ok "Era uma vez, uma história.") =
      (.ok ⟨"Era uma vez, uma história."⟩, 1) :=
  ⟨by decide, rfl⟩

/-- C3 (amended): the handler performs no emptiness validation on the
theme: when the chat credential is present, the outcome does not depend
on the theme string and the chat client is invoked exactly once, even
for themes that are empty after trimming. -/
theorem c3_no_emptiness_validation (env : Env) (q1 q2 : QueryInput)
    (chat : ChatOutcome) (h : envTruthy env.GROQ_API_KEY = true) :
    gerar_historia env q1 chat = gerar_historia env q2 chat ∧
    (gerar_historia env q1 chat).2 = 1 := by
  refine ⟨rfl, ?_⟩
  cases chat <;> simp [gerar_historia, h]

/-- C3 (amended) witness at an empty theme and a concrete credential. -/
theorem c3_no_emptiness_validation_witness :
    gerar_historia ⟨some "gsk_w", none⟩ ⟨""⟩ (.ok "T") =
      gerar_historia ⟨some "gsk_w", none⟩ ⟨"um tema"⟩ (.ok "T") ∧
    (gerar_historia ⟨some "gsk_w", none⟩ ⟨""⟩ (.ok "T")).2 = 1 :=
  c3_no_emptiness_validation ⟨some "gsk_w", none⟩ ⟨""⟩ ⟨"um tema"⟩ (.ok "T")
    (by decide)

/-- C4: with the chat credential unset, gerar_historia fails with the
HTTP 500 configuration error and the chat client is invoked zero times,
whatever the request and whatever the mocked chat client would do. -/
theorem c4_missing_chat_credential (gem : Option String) (inp : QueryInput)
    (chat : ChatOutcome) :
    gerar_historia ⟨none, gem⟩ inp chat =
      (.httpError ⟨500, "GROQ_API_KEY não configurada."⟩, 0) := rfl

/-- C5: gerar_historia's outcome is independent of the speech credential
(any two values of GEMINI_API_KEY give the same response), and with
GEMINI_API_KEY absent gerar_audio returns the HTTP 500 configuration
error with zero outbound calls. -/
theorem c5_speech_credential_independence (g gem1 gem2 : Option String)
    (qinp : QueryInput) (chat : ChatOutcome) (ainp : AudioInput)
    (up : SpeechUpstream) :
    gerar_historia ⟨g, gem1⟩ qinp chat = gerar_historia ⟨g, gem2⟩ qinp chat ∧
    gerar_audio ⟨g, none⟩ ainp up =
      (.httpError ⟨500, "Chave da API de Áudio não configurada."⟩, 0) :=
  ⟨rfl, rfl⟩

/-- C7: with the chat credential present and a theme that is non-empty
after trimming, when the upstream chat client returns text T the handler
returns exactly StoryOutput with story_text = T, unmodified, after one
upstream invocation. -/
theorem c7_story_text_verbatim (env : Env) (inp : QueryInput) (T : String)
    (hk : envTruthy env.GROQ_API_KEY = true)
    (hq : strip inp.query ≠ "") :
    gerar_historia env inp (.ok T) = (.ok ⟨T⟩, 1) := by
  simp [gerar_historia, hk]

/-- C7 witness at a concrete theme and generated text. -/
theorem c7_story_text_verbatim_witness :
    gerar_historia ⟨some "gsk_abc", none⟩ ⟨"um dragão tímido"⟩
      (.ok "Era uma vez um dragão tímido.") =
      (.ok ⟨"Era uma vez um dragão tímido."⟩, 1) :=
  c7_story_text_verbatim ⟨some "gsk_abc", none⟩ ⟨"um dragão tímido"⟩
    "Era uma vez um dragão tímido." (by decide) (by decide)

/-- C9: setting a credential to the empty string behaves exactly like
leaving it unset: both handlers return their HTTP 500 configuration
error with zero outbound calls. -/
theorem c9_empty_credential_like_absent (gem gr : Option String)
    (qinp : QueryInput) (chat : ChatOutcome) (ainp : AudioInput)
    (up : SpeechUpstream) :
    gerar_historia ⟨some "", gem⟩ qinp chat = gerar_historia ⟨none, gem⟩ qinp chat ∧
    gerar_historia ⟨some "", gem⟩ qinp chat =
      (.httpError ⟨500, "GROQ_API_KEY não configurada."⟩, 0) ∧
    gerar_audio ⟨gr, some ""⟩ ainp up = gerar_audio ⟨gr, none⟩ ainp up ∧
    gerar_audio ⟨gr, some ""⟩ ainp up =
      (.httpError ⟨500, "Chave da API de Áudio não configurada."⟩, 0) :=
  ⟨rfl, rfl, rfl, rfl⟩

/-- C1 (code behaviour at the claimed input): with the speech credential
set, an upstream 403 response does NOT surface as HTTP 403 — the
HTTPException(403) raised at main.py line 138 is caught by the catch-all
except clause of line 156 and re-wrapped as HTTP 500 with the original
message embedded in the detail. -/
theorem c1_upstream_403_rewrapped_as_500 (inp : AudioInput) (body : Json) :
    gerar_audio ⟨none, some "chave"⟩ inp (.response 403 body) =
      (.httpError ⟨500,
        "Erro ao gerar áudio: 403: A chave da API de Áudio é inválida."⟩, 1) := rfl

/-- C2: on a success-status upstream response whose extraction reaches
the inlineData lookups but finds data or mimeType absent (Python None),
the handler returns HTTP 500 carrying the malformed-response message
"API de TTS não retornou dados de áudio." (wrapped by the catch-all
except clause) in the detail. -/
theorem c2_missing_payload_field_500 (env : Env) (inp : AudioInput)
    (status : Nat) (body : Json) (d m : Json)
    (hk : envTruthy env.GEMINI_API_KEY = true)
    (h200 : 200 ≤ status) (h300 : status < 300)
    (hext : extractFields body = .ok (d, m))
    (hmiss : d = .null ∨ m = .null) :
    gerar_audio env inp (.response status body) =
      (.httpError ⟨500,
        "Erro ao gerar áudio: 500: API de TTS não retornou dados de áudio."⟩, 1) := by
  rw [gerar_audio_unfold env inp _ hk,
    gerar_audio_try_extract_ok status body d m h200 h300 hext]
  have hb : (!(jsonTruthy d) || !(jsonTruthy m)) = true := by
    rcases hmiss with h | h <;> subst h <;> simp [jsonTruthy]
  simp only [finalize, hb, if_true]
  rfl

/-- C2 witness: a 200 response whose body has the full fixed path but no
inlineData.data field. -/
theorem c2_missing_payload_field_500_witness :
    gerar_audio ⟨none, some "chave"⟩ ⟨"olá"⟩
      (.response 200 (.obj [("candidates", .arr [.obj [("content",
        .obj [("parts", .arr [.obj [("inlineData",
          .obj [("mimeType", .str "audio/L16;rate=24000")])]])])]])])) =
      (.httpError ⟨500,
        "Erro ao gerar áudio: 500: API de TTS não retornou dados de áudio."⟩, 1) :=
  c2_missing_payload_field_500 ⟨none, some "chave"⟩ ⟨"olá"⟩ 200
    (.obj [("candidates", .arr [.obj [("content",
      .obj [("parts", .arr [.obj [("inlineData",
        .obj [("mimeType", .str "audio/L16;rate=24000")])]])])]])])
    .null (.str "audio/L16;rate=24000")
    (by decide) (by decide) (by decide) rfl (Or.inl rfl)

/-- C6: with the speech credential present, any httpx.RequestError from
the outbound call is mapped to HTTP 502 with the stringified cause
appended to the detail message. -/
theorem c6_transport_failure_502 (env : Env) (inp : AudioInput) (msg : String)
    (hk : envTruthy env.GEMINI_API_KEY = true) :
    gerar_audio env inp (.requestError msg) =
      (.httpError ⟨502, "Erro de comunicação com a API de Áudio: " ++ msg⟩, 1) := by
  rw [gerar_audio_unfold env inp _ hk]
  rfl

/-- C6 witness at a concrete connection failure. -/
theorem c6_transport_failure_502_witness :
    gerar_audio ⟨none, some "chave"⟩ ⟨"olá"⟩
      (.requestError "All connection attempts failed") =
      (.httpError ⟨502,
        "Erro de comunicação com a API de Áudio: All connection attempts failed"⟩, 1) :=
  c6_transport_failure_502 ⟨none, some "chave"⟩ ⟨"olá"⟩
    "All connection attempts failed" (by decide)

/-- C8: for every JSON body of a success-status upstream response the
handler terminates with a well-formed outcome (a 200 AudioOutput or an
HTTPException) after exactly one outbound call; every Python exception
raised during extraction (IndexError on empty candidates or parts,
TypeError, KeyError, AttributeError) is converted by the catch-all
except clause into an HTTP 500; and an empty-string data or mimeType
field yields the same malformed-response HTTP 500 as an absent one. -/
theorem c8_audio_handler_total (env : Env) (inp : AudioInput) (status : Nat)
    (body : Json) (hk : envTruthy env.GEMINI_API_KEY = true)
    (h200 : 200 ≤ status) (h300 : status < 300) :
    ((∃ out, gerar_audio env inp (.response status body) = (.ok out, 1)) ∨
      (∃ e, gerar_audio env inp (.response status body) = (.httpError e, 1))) ∧
    (∀ pe, extractFields body = .error pe →
      gerar_audio env inp (.response status body) =
        (.httpError ⟨500, "Erro ao gerar áudio: " ++ pe.toMsg⟩, 1)) ∧
    (∀ d m, extractFields body = .ok (d, m) →
      (d = .null ∨ d = .str "" ∨ m = .null ∨ m = .str "") →
      gerar_audio env inp (.response status body) =
        (.httpError ⟨500,
          "Erro ao gerar áudio: 500: API de TTS não retornou dados de áudio."⟩, 1)) := by
  refine ⟨?_, ?_, ?_⟩
  · rw [gerar_audio_unfold env inp _ hk]
    cases htry : gerar_audio_try (.response status body) with
    | ok out => exact Or.inl ⟨out, rfl⟩
    | error e => cases e <;> exact Or.inr ⟨_, rfl⟩
  · intro pe hext
    rw [gerar_audio_unfold env inp _ hk,
      gerar_audio_try_extract_err status body pe h200 h300 hext]
    rfl
  · intro d m hext hmiss
    rw [gerar_audio_unfold env inp _ hk,
      gerar_audio_try_extract_ok status body d m h200 h300 hext]
    have hb : (!(jsonTruthy d) || !(jsonTruthy m)) = true := by
      rcases hmiss with h | h | h | h <;> subst h <;>
        simp [jsonTruthy, String.isEmpty_iff]
    simp only [finalize, hb, if_true]
    rfl

/-- C8 witness: a 200 response with an empty candidates list raises
IndexError inside the try block, which surfaces as a well-formed
HTTP 500. -/
theorem c8_audio_handler_total_witness :
    gerar_audio ⟨none, some "chave"⟩ ⟨"olá"⟩
      (.response 200 (.obj [("candidates", .arr [])])) =
      (.httpError ⟨500, "Erro ao gerar áudio: list index out of range"⟩, 1) :=
  (c8_audio_handler_total ⟨none, some "chave"⟩ ⟨"olá"⟩ 200
    (.obj [("candidates", .arr [])]) (by decide) (by decide) (by decide)).2.1
    (.indexError "list index out of range") rfl

/-- C10: on a success-status response whose extraction yields string
values for data and mimeType, both non-empty, the handler returns them
verbatim as audio_base64 and mime_type — for arbitrary strings, so no
base64 decoding, re-encoding or validation takes place. -/
theorem c10_success_verbatim (env : Env) (inp : AudioInput) (status : Nat)
    (body : Json) (a m : String)
    (hk : envTruthy env.GEMINI_API_KEY = true)
    (h200 : 200 ≤ status) (h300 : status < 300)
    (hext : extractFields body = .ok (.str a, .str m))
    (ha : a ≠ "") (hm : m ≠ "") :
    gerar_audio env inp (.response status body) = (.ok ⟨a, m⟩, 1) := by
  rw [gerar_audio_unfold env inp _ hk,
    gerar_audio_try_extract_ok status body (.str a) (.str m) h200 h300 hext]
  have hb : (!(jsonTruthy (.str a)) || !(jsonTruthy (.str m))) = false := by
    simp [jsonTruthy, Bool.eq_false_iff, String.isEmpty_iff, ha, hm]
  simp only [finalize, hb, Bool.false_eq_true, if_false]
  rfl

/-- C10 witness: the data string is not well-formed base64 and is still
returned verbatim. -/
theorem c10_success_verbatim_witness :
    gerar_audio ⟨none, some "chave"⟩ ⟨"olá"⟩
      (.response 200 (.obj [("candidates", .arr [.obj [("content",
        .obj [("parts", .arr [.obj [("inlineData",
          .obj [("data", .str "???isto-não-é-base64!!!"),
                ("mimeType", .str "audio/L16;rate=24000")])]])])]])])) =
      (.ok ⟨"???isto-não-é-base64!!!", "audio/L16;rate=24000"⟩, 1) :=
  c10_success_verbatim ⟨none, some "chave"⟩ ⟨"olá"⟩ 200
    (.obj [("candidates", .arr [.obj [("content",
      .obj [("parts", .arr [.obj [("inlineData",
        .obj [("data", .str "???isto-não-é-base64!!!"),
              ("mimeType", .str "audio/L16;rate=24000")])]])])]])])
    "???isto-não-é-base64!!!" "audio/L16;rate=24000"
    (by decide) (by decide) (by decide) rfl (by decide) (by decide)

end Contador
